import Mathlib

/-!
# Verification of `pkg/client/csi_client.go`

A shallow embedding of the CSI client adapter of volume-modifier-for-k8s.

The Go code is effectful: every interesting statement is a call into a
library (`connection`, `rpc`, the generated gRPC clients, `klog`).  The
embedding is explicit state passing over a `World` that records, in order,
every library call the code issues together with the error it returned, the
set of transport channels currently open, and the `klog` records written.
What the outside world answers is given by a `Driver`: one response function
per library entry point, each of which may depend on the whole history of
calls so far.  Nothing is assumed about these functions.

`context.Context` values (and the deferred `cancel()` of `New`) carry no data
the code branches on; a timeout that fires shows up as the error returned by
the library call and is therefore part of the `Driver` response.
-/

namespace VolumeModifier

/-! ## Go values -/

/-- Go `error` values (non-nil ones; a nil error is `none : Option GoError`).
`foreign` is an error produced outside this package (transport, gRPC status);
`wrapped` is the result of `fmt.Errorf` with a `%w` verb, which keeps the
operand reachable through `Unwrap`; `formatted` is the result of `fmt.Errorf`
with a `%v` verb, which keeps only the text. -/
inductive GoError where
  | foreign (id : Nat) (text : String)
  | wrapped (text : String) (inner : GoError)
  | formatted (text : String)
deriving DecidableEq, Repr

/-- The `Error()` method. -/
def GoError.Error : GoError → String
  | .foreign _ text => text
  | .wrapped text _ => text
  | .formatted text => text

/-- The `Unwrap()` method as seen by `errors.Unwrap`. -/
def GoError.Unwrap : GoError → Option GoError
  | .wrapped _ inner => some inner
  | _ => none

/-- Go `fmt.Errorf(format ++ "%w", err)` with the constant part of the format given. -/
def fmt.Errorf_w (format : String) (err : GoError) : GoError :=
  .wrapped (format ++ err.Error) err

/-- Go `fmt.Errorf(format ++ "%v", err)` with the constant part of the format given. -/
def fmt.Errorf_v (format : String) (err : GoError) : GoError :=
  .formatted (format ++ err.Error)

/-- Go `map[string]string`, as an association list. -/
abbrev StringMap := List (String × String)

/-- Identity of a `*grpc.ClientConn`. -/
abbrev ClientConn := Nat

/-- Go `time.Duration` (nanoseconds). -/
abbrev Duration := Int

/-- Identity of a `metrics.CSIMetricsManager`. -/
abbrev CSIMetricsManager := Nat

/-- The enum `csi.ControllerServiceCapability_RPC_Type` (an `int32`). -/
abbrev ControllerServiceCapability_RPC_Type := Int

/-- The constant `csi.ControllerServiceCapability_RPC_MODIFY_VOLUME` of the CSI library. -/
def ControllerServiceCapability_RPC_MODIFY_VOLUME : ControllerServiceCapability_RPC_Type := 14

/-- The type `rpc.ControllerCapabilitySet`, a Go `map[csi.ControllerServiceCapability_RPC_Type]bool`. -/
abbrev ControllerCapabilitySet := List (ControllerServiceCapability_RPC_Type × Bool)

/-- Go map indexing `caps[k]`: the stored value, or the zero value `false` when the key is absent. -/
def ControllerCapabilitySet.index (caps : ControllerCapabilitySet)
    (k : ControllerServiceCapability_RPC_Type) : Bool :=
  (List.lookup k caps).getD false

/-- The message `csi.ControllerModifyVolumeRequest`. -/
structure ControllerModifyVolumeRequest where
  VolumeId : String
  Secrets : StringMap
  MutableParameters : StringMap
deriving DecidableEq, Repr

/-- The message `modifyrpc.ModifyVolumePropertiesRequest`. -/
structure ModifyVolumePropertiesRequest where
  Name : String
  Parameters : StringMap
  Context : StringMap
deriving DecidableEq, Repr

/-- The message `modifyrpc.GetCSIDriverModificationCapabilityRequest` (no fields are set by the client). -/
inductive GetCSIDriverModificationCapabilityRequest where
  | empty
deriving DecidableEq, Repr

/-! ## The outside world -/

/-- The library calls the client issues. -/
inductive Call where
  | Connect (addr : String) (metricsmanager : CSIMetricsManager)
  | ProbeForever (conn : ClientConn) (timeout : Duration)
  | GetControllerCapabilities (conn : ClientConn)
  | GetDriverName (conn : ClientConn)
  | GetCSIDriverModificationCapability (conn : ClientConn)
      (req : GetCSIDriverModificationCapabilityRequest)
  | ControllerModifyVolume (conn : ClientConn) (req : ControllerModifyVolumeRequest)
  | ModifyVolumeProperties (conn : ClientConn) (req : ModifyVolumePropertiesRequest)
  | Close (conn : ClientConn)
deriving DecidableEq, Repr

/-- One observed call: what was called and the error it came back with. -/
structure Event where
  call : Call
  err : Option GoError
deriving DecidableEq, Repr

/-- State threaded through the client code. -/
structure World where
  events : List Event
  openConns : List ClientConn
  klog : List (String × String × String)
deriving DecidableEq, Repr

/-- The answers of the environment.  Every answer may depend on the history. -/
structure Driver where
  connect : List Event → String → CSIMetricsManager → Except GoError ClientConn
  probeForever : List Event → ClientConn → Duration → Option GoError
  getControllerCapabilities : List Event → ClientConn → Except GoError ControllerCapabilitySet
  getDriverName : List Event → ClientConn → String × Option GoError
  getCSIDriverModificationCapability :
    List Event → ClientConn → GetCSIDriverModificationCapabilityRequest → Option GoError
  controllerModifyVolume : List Event → ClientConn → ControllerModifyVolumeRequest → Option GoError
  modifyVolumeProperties : List Event → ClientConn → ModifyVolumePropertiesRequest → Option GoError
  close : List Event → ClientConn → Option GoError

/-- Append an observed call to the history. -/
def World.record (w : World) (call : Call) (err : Option GoError) : World :=
  ⟨w.events ++ [⟨call, err⟩], w.openConns, w.klog⟩

/-- The error component of a Go `(value, error)` result. -/
def errOf {α : Type} : Except GoError α → Option GoError
  | .error e => some e
  | .ok _ => none

/-- Library `connection.Connect`: on success the new channel is open. -/
def connection.Connect (d : Driver) (addr : String) (metricsmanager : CSIMetricsManager)
    (w : World) : Except GoError ClientConn × World :=
  match d.connect w.events addr metricsmanager with
  | .error e => (.error e, w.record (.Connect addr metricsmanager) (some e))
  | .ok conn =>
    (.ok conn, ⟨w.events ++ [⟨.Connect addr metricsmanager, none⟩], conn :: w.openConns, w.klog⟩)

/-- Library `rpc.ProbeForever`. -/
def rpc.ProbeForever (d : Driver) (conn : ClientConn) (timeout : Duration)
    (w : World) : Option GoError × World :=
  let r := d.probeForever w.events conn timeout
  (r, w.record (.ProbeForever conn timeout) r)

/-- Library `rpc.GetControllerCapabilities`. -/
def rpc.GetControllerCapabilities (d : Driver) (conn : ClientConn)
    (w : World) : Except GoError ControllerCapabilitySet × World :=
  let r := d.getControllerCapabilities w.events conn
  (r, w.record (.GetControllerCapabilities conn) (errOf r))

/-- Library `rpc.GetDriverName`. -/
def rpc.GetDriverName (d : Driver) (conn : ClientConn)
    (w : World) : (String × Option GoError) × World :=
  let r := d.getDriverName w.events conn
  (r, w.record (.GetDriverName conn) r.2)

/-- Generated stub `ModifyClient.GetCSIDriverModificationCapability` (the response message is discarded by the caller). -/
def modifyrpc.GetCSIDriverModificationCapability (d : Driver) (conn : ClientConn)
    (req : GetCSIDriverModificationCapabilityRequest) (w : World) : Option GoError × World :=
  let r := d.getCSIDriverModificationCapability w.events conn req
  (r, w.record (.GetCSIDriverModificationCapability conn req) r)

/-- Generated stub `ControllerClient.ControllerModifyVolume`. -/
def csi.ControllerModifyVolume (d : Driver) (conn : ClientConn)
    (req : ControllerModifyVolumeRequest) (w : World) : Option GoError × World :=
  let r := d.controllerModifyVolume w.events conn req
  (r, w.record (.ControllerModifyVolume conn req) r)

/-- Generated stub `ModifyClient.ModifyVolumeProperties`. -/
def modifyrpc.ModifyVolumeProperties (d : Driver) (conn : ClientConn)
    (req : ModifyVolumePropertiesRequest) (w : World) : Option GoError × World :=
  let r := d.modifyVolumeProperties w.events conn req
  (r, w.record (.ModifyVolumeProperties conn req) r)

/-- Library `(*grpc.ClientConn).Close`: the channel is no longer open afterwards. -/
def grpc.Close (d : Driver) (conn : ClientConn) (w : World) : Option GoError × World :=
  let r := d.close w.events conn
  (r, ⟨w.events ++ [⟨.Close conn, r⟩], w.openConns.filter (fun k => k != conn), w.klog⟩)

/-- Library `klog.V(4).InfoS(msg, key, value)`. -/
def klog.InfoS (msg key value : String) (w : World) : World :=
  ⟨w.events, w.openConns, w.klog ++ [(msg, key, value)]⟩

/-! ## The client -/

/-- The struct `client`. -/
structure client where
  conn : ClientConn
  supportsControllerModifyVolume : Bool
deriving DecidableEq, Repr

/-- The constructor `New`; the Go result pair `(Client, error)` is the first component. -/
def New (d : Driver) (addr : String) (timeout : Duration) (metricsmanager : CSIMetricsManager)
    (w : World) : (Option client × Option GoError) × World :=
  match connection.Connect d addr metricsmanager w with
  | (.error err, w1) =>
    ((none, some (fmt.Errorf_w "failed to connect to CSI driver: " err)), w1)
  | (.ok conn, w1) =>
    match rpc.ProbeForever d conn timeout w1 with
    | (some err, w2) =>
      ((none, some (fmt.Errorf_w "failed probing CSI driver: " err)), w2)
    | (none, w2) =>
      match rpc.GetControllerCapabilities d conn w2 with
      | (.error err, w3) =>
        ((none, some (fmt.Errorf_v "failed getting controller capabilities: " err)), w3)
      | (.ok caps, w3) =>
        ((some { conn := conn,
                 supportsControllerModifyVolume :=
                   caps.index ControllerServiceCapability_RPC_MODIFY_VOLUME }, none), w3)

/-- The method `(*client).GetDriverName`. -/
def client.GetDriverName (d : Driver) (c : client) (w : World) :
    (String × Option GoError) × World :=
  rpc.GetDriverName d c.conn w

/-- The method `(*client).SupportsVolumeModification`. -/
def client.SupportsVolumeModification (d : Driver) (c : client) (w : World) :
    Option GoError × World :=
  if c.supportsControllerModifyVolume then
    (none, w)
  else
    modifyrpc.GetCSIDriverModificationCapability d c.conn .empty w

/-- The method `(*client).Modify`. -/
def client.Modify (d : Driver) (c : client) (volumeID : String) (params reqContext : StringMap)
    (w : World) : Option GoError × World :=
  let r :=
    if c.supportsControllerModifyVolume then
      csi.ControllerModifyVolume d c.conn
        { VolumeId := volumeID, MutableParameters := params, Secrets := reqContext } w
    else
      modifyrpc.ModifyVolumeProperties d c.conn
        { Name := volumeID, Parameters := params, Context := reqContext } w
  match r with
  | (none, w1) => (none, klog.InfoS "Volume modification completed" "volumeID" volumeID w1)
  | (some err, w1) => (some err, w1)

/-- The method `(*client).CloseConnection`; the error of `Close` is dropped. -/
def client.CloseConnection (d : Driver) (c : client) (w : World) : World :=
  (grpc.Close d c.conn w).2

/-! ## Sequences of operations on a handle -/

/-- The operations of the `Client` interface, with their arguments. -/
inductive Op where
  | Modify (volumeID : String) (params reqContext : StringMap)
  | SupportsVolumeModification
  | GetDriverName
  | CloseConnection
deriving DecidableEq, Repr

/-- One operation on the handle.  The methods have pointer receivers; none of
them assigns a field of the receiver, so the struct after the call is the
struct before it. -/
def Op.run (d : Driver) (op : Op) (s : client × World) : client × World :=
  match op with
  | .Modify volumeID params reqContext => (s.1, (s.1.Modify d volumeID params reqContext s.2).2)
  | .SupportsVolumeModification => (s.1, (s.1.SupportsVolumeModification d s.2).2)
  | .GetDriverName => (s.1, (s.1.GetDriverName d s.2).2)
  | .CloseConnection => (s.1, s.1.CloseConnection d s.2)

/-- A finite sequence of operations, in order. -/
def runOps (d : Driver) (ops : List Op) (s : client × World) : client × World :=
  ops.foldl (fun acc op => op.run d acc) s

/-- Number of controller-capability queries in a history. -/
def capabilityQueries (evs : List Event) : Nat :=
  evs.countP (fun e => match e.call with
    | .GetControllerCapabilities _ => true
    | _ => false)

/-- Whether an event is a legacy capability probe. -/
def Event.isLegacyProbe (e : Event) : Bool :=
  match e.call with
  | .GetCSIDriverModificationCapability _ _ => true
  | _ => false

/-- Whether an event is a legacy modify call. -/
def Event.isModifyVolumeProperties (e : Event) : Bool :=
  match e.call with
  | .ModifyVolumeProperties _ _ => true
  | _ => false

/-- Whether an event is a standardized modify call. -/
def Event.isControllerModifyVolume (e : Event) : Bool :=
  match e.call with
  | .ControllerModifyVolume _ _ => true
  | _ => false

/-- Whether an event is a channel release. -/
def Event.isClose (e : Event) : Bool :=
  match e.call with
  | .Close _ => true
  | _ => false

/-! ## Events issued by a call -/

/-- The events a computation appended to the history `before`. -/
def issued (before after : World) : List Event :=
  after.events.drop before.events.length

/-! ## Histories during construction -/

/-- History after a successful `Connect`. -/
def afterConnect (w : World) (addr : String) (metricsmanager : CSIMetricsManager) : List Event :=
  w.events ++ [⟨.Connect addr metricsmanager, none⟩]

/-- History after a successful `Connect` and a successful `ProbeForever`. -/
def afterProbe (w : World) (addr : String) (metricsmanager : CSIMetricsManager)
    (conn : ClientConn) (timeout : Duration) : List Event :=
  afterConnect w addr metricsmanager ++ [⟨.ProbeForever conn timeout, none⟩]

/-! ## Stub drivers used at concrete inputs -/

/-- A driver that answers every call with success; it advertises the given capability set. -/
def okDriver (caps : ControllerCapabilitySet) : Driver where
  connect := fun _ _ _ => .ok 1
  probeForever := fun _ _ _ => none
  getControllerCapabilities := fun _ _ => .ok caps
  getDriverName := fun _ _ => ("stub.csi.driver", none)
  getCSIDriverModificationCapability := fun _ _ _ => none
  controllerModifyVolume := fun _ _ _ => none
  modifyVolumeProperties := fun _ _ _ => none
  close := fun _ _ => none

/-- A legacy-only driver: it does not advertise nor implement the standardized
modify call, and answers the legacy calls with success. -/
def legacyDriver : Driver where
  connect := fun _ _ _ => .ok 1
  probeForever := fun _ _ _ => none
  getControllerCapabilities := fun _ _ => .ok [(1, true), (9, true)]
  getDriverName := fun _ _ => ("legacy.csi.driver", none)
  getCSIDriverModificationCapability := fun _ _ _ => none
  controllerModifyVolume := fun _ _ _ => some (.foreign 12 "unknown method ControllerModifyVolume")
  modifyVolumeProperties := fun _ _ _ => none
  close := fun _ _ => none

/-- A driver that advertises the standardized modify call and fails every modification. -/
def failingDriver : Driver where
  connect := fun _ _ _ => .ok 1
  probeForever := fun _ _ _ => none
  getControllerCapabilities := fun _ _ => .ok [(14, true)]
  getDriverName := fun _ _ => ("failing.csi.driver", none)
  getCSIDriverModificationCapability := fun _ _ _ => none
  controllerModifyVolume := fun _ _ _ => some (.foreign 13 "internal error")
  modifyVolumeProperties := fun _ _ _ => none
  close := fun _ _ => none

/-- A driver whose channel opens and which never becomes ready: the readiness
probe gives up with the timeout error. -/
def neverReadyDriver : Driver where
  connect := fun _ _ _ => .ok 1
  probeForever := fun _ _ _ => some (.foreign 4 "context deadline exceeded")
  getControllerCapabilities := fun _ _ => .ok [(14, true)]
  getDriverName := fun _ _ => ("slow.csi.driver", none)
  getCSIDriverModificationCapability := fun _ _ _ => none
  controllerModifyVolume := fun _ _ _ => none
  modifyVolumeProperties := fun _ _ _ => none
  close := fun _ _ => none

/-- A driver that implements neither dialect: it does not advertise the
standardized modify call and answers both modify calls and the legacy
capability probe with an "unimplemented" error. -/
def neitherDriver : Driver where
  connect := fun _ _ _ => .ok 1
  probeForever := fun _ _ _ => none
  getControllerCapabilities := fun _ _ => .ok [(1, true)]
  getDriverName := fun _ _ => ("plain.csi.driver", none)
  getCSIDriverModificationCapability := fun _ _ _ => some (.foreign 12 "unknown service Modify")
  controllerModifyVolume := fun _ _ _ => some (.foreign 12 "unknown method ControllerModifyVolume")
  modifyVolumeProperties := fun _ _ _ => some (.foreign 12 "unknown service Modify")
  close := fun _ _ => none

/-- The empty initial world. -/
def World.init : World := ⟨[], [], []⟩

/-! ## Basic facts about `Modify` -/

theorem Modify_true (d : Driver) (conn : ClientConn) (volumeID : String)
    (params reqContext : StringMap) (w : World) :
    (client.Modify d ⟨conn, true⟩ volumeID params reqContext w).1 =
        d.controllerModifyVolume w.events conn
          { VolumeId := volumeID, MutableParameters := params, Secrets := reqContext } ∧
    (client.Modify d ⟨conn, true⟩ volumeID params reqContext w).2.events =
        w.events ++ [⟨.ControllerModifyVolume conn
          { VolumeId := volumeID, MutableParameters := params, Secrets := reqContext },
          d.controllerModifyVolume w.events conn
            { VolumeId := volumeID, MutableParameters := params, Secrets := reqContext }⟩] ∧
    (client.Modify d ⟨conn, true⟩ volumeID params reqContext w).2.openConns = w.openConns := by
  simp only [client.Modify, csi.ControllerModifyVolume, World.record, if_true]
  cases d.controllerModifyVolume w.events conn
      { VolumeId := volumeID, MutableParameters := params, Secrets := reqContext } <;>
    simp [klog.InfoS]

theorem Modify_false (d : Driver) (conn : ClientConn) (volumeID : String)
    (params reqContext : StringMap) (w : World) :
    (client.Modify d ⟨conn, false⟩ volumeID params reqContext w).1 =
        d.modifyVolumeProperties w.events conn
          { Name := volumeID, Parameters := params, Context := reqContext } ∧
    (client.Modify d ⟨conn, false⟩ volumeID params reqContext w).2.events =
        w.events ++ [⟨.ModifyVolumeProperties conn
          { Name := volumeID, Parameters := params, Context := reqContext },
          d.modifyVolumeProperties w.events conn
            { Name := volumeID, Parameters := params, Context := reqContext }⟩] ∧
    (client.Modify d ⟨conn, false⟩ volumeID params reqContext w).2.openConns = w.openConns := by
  simp only [client.Modify, modifyrpc.ModifyVolumeProperties, World.record]
  cases d.modifyVolumeProperties w.events conn
      { Name := volumeID, Parameters := params, Context := reqContext } <;>
    simp [klog.InfoS]

theorem issued_append (w w1 : World) (evs : List Event) (h : w1.events = w.events ++ evs) :
    issued w w1 = evs := by
  simp [issued, h]

/-! ## Claims about `Modify` -/

/-- C1: on a handle whose flag `supportsControllerModifyVolume` is true, `Modify`
issues exactly the standardized `ControllerModifyVolume` call with
`VolumeId = volumeID`, `MutableParameters = params`, `Secrets = reqContext`
(the event carries the error `Modify` returns), and none of the calls it issues
is a legacy `ModifyVolumeProperties` call. -/
theorem Modify_standardized (d : Driver) (c : client) (volumeID : String)
    (params reqContext : StringMap) (w : World)
    (h : c.supportsControllerModifyVolume = true) :
    issued w (c.Modify d volumeID params reqContext w).2 =
        [⟨.ControllerModifyVolume c.conn
          { VolumeId := volumeID, MutableParameters := params, Secrets := reqContext },
          (c.Modify d volumeID params reqContext w).1⟩] ∧
    (c.Modify d volumeID params reqContext w).2.events =
        w.events ++ issued w (c.Modify d volumeID params reqContext w).2 ∧
    ∀ e ∈ issued w (c.Modify d volumeID params reqContext w).2,
      e.isModifyVolumeProperties = false := by
  obtain ⟨conn, flag⟩ := c
  simp only at h
  subst h
  obtain ⟨h1, h2, -⟩ := Modify_true d conn volumeID params reqContext w
  have hi := issued_append w _ _ h2
  rw [hi, h1]
  refine ⟨rfl, h2, ?_⟩
  intro e he
  simp only [List.mem_singleton] at he
  subst he
  rfl

/-- C1 at the concrete input of the specification: volume "vol-1", parameters
{"iops": "3000"}, empty context, against a stub that answers success: the
result is nil and exactly one call is observed, the standardized one. -/
theorem Modify_standardized_witness :
    (client.mk 1 true).supportsControllerModifyVolume = true ∧
    (client.Modify (okDriver []) ⟨1, true⟩ "vol-1" [("iops", "3000")] [] World.init).1 = none ∧
    (client.Modify (okDriver []) ⟨1, true⟩ "vol-1" [("iops", "3000")] [] World.init).2.events =
      [⟨.ControllerModifyVolume 1
        { VolumeId := "vol-1", MutableParameters := [("iops", "3000")], Secrets := [] }, none⟩] ∧
    (issued World.init
        (client.Modify (okDriver []) ⟨1, true⟩ "vol-1" [("iops", "3000")] [] World.init).2 =
      [⟨.ControllerModifyVolume 1
        { VolumeId := "vol-1", MutableParameters := [("iops", "3000")], Secrets := [] }, none⟩]) :=
  ⟨rfl, rfl, rfl,
    (Modify_standardized (okDriver []) ⟨1, true⟩ "vol-1" [("iops", "3000")] [] World.init rfl).1⟩

/-- C2: on a handle whose flag `supportsControllerModifyVolume` is false (and on
which the legacy capability probe succeeds), `Modify` issues exactly the legacy
`ModifyVolumeProperties` call with `Name = volumeID`, `Parameters = params`,
`Context = reqContext`, and none of the calls it issues is a standardized
`ControllerModifyVolume` call. -/
theorem Modify_legacy (d : Driver) (c : client) (volumeID : String)
    (params reqContext : StringMap) (w : World)
    (h : c.supportsControllerModifyVolume = false)
    (_hprobe : (c.SupportsVolumeModification d w).1 = none) :
    issued w (c.Modify d volumeID params reqContext w).2 =
        [⟨.ModifyVolumeProperties c.conn
          { Name := volumeID, Parameters := params, Context := reqContext },
          (c.Modify d volumeID params reqContext w).1⟩] ∧
    (c.Modify d volumeID params reqContext w).2.events =
        w.events ++ issued w (c.Modify d volumeID params reqContext w).2 ∧
    ∀ e ∈ issued w (c.Modify d volumeID params reqContext w).2,
      e.isControllerModifyVolume = false := by
  obtain ⟨conn, flag⟩ := c
  simp only at h
  subst h
  obtain ⟨h1, h2, -⟩ := Modify_false d conn volumeID params reqContext w
  have hi := issued_append w _ _ h2
  rw [hi, h1]
  refine ⟨rfl, h2, ?_⟩
  intro e he
  simp only [List.mem_singleton] at he
  subst he
  rfl

/-- C2 at the concrete input of the specification: volume "vol-1", parameters
{"iops": "3000"}, empty context, against a legacy-only stub: exactly one call is
observed, the legacy one, and the result is nil. -/
theorem Modify_legacy_witness :
    (client.mk 1 false).supportsControllerModifyVolume = false ∧
    (client.SupportsVolumeModification legacyDriver ⟨1, false⟩ World.init).1 = none ∧
    (client.Modify legacyDriver ⟨1, false⟩ "vol-1" [("iops", "3000")] [] World.init).1 = none ∧
    (client.Modify legacyDriver ⟨1, false⟩ "vol-1" [("iops", "3000")] [] World.init).2.events =
      [⟨.ModifyVolumeProperties 1
        { Name := "vol-1", Parameters := [("iops", "3000")], Context := [] }, none⟩] ∧
    (issued World.init
        (client.Modify legacyDriver ⟨1, false⟩ "vol-1" [("iops", "3000")] [] World.init).2 =
      [⟨.ModifyVolumeProperties 1
        { Name := "vol-1", Parameters := [("iops", "3000")], Context := [] }, none⟩]) :=
  ⟨rfl, rfl, rfl, rfl,
    (Modify_legacy legacyDriver ⟨1, false⟩ "vol-1" [("iops", "3000")] [] World.init rfl rfl).1⟩

/-- C3: for every handle, request and driver, `Modify` issues a single call and
returns exactly the error value that call returned: the value the driver
answered for the dialect chosen by the flag, unchanged.  In particular `Modify`
returns nil if and only if the remote call returned nil. -/
theorem Modify_returns_remote_error (d : Driver) (c : client) (volumeID : String)
    (params reqContext : StringMap) (w : World) :
    ∃ ev : Event,
      (c.Modify d volumeID params reqContext w).2.events = w.events ++ [ev] ∧
      (c.Modify d volumeID params reqContext w).1 = ev.err ∧
      ev.err = (if c.supportsControllerModifyVolume then
          d.controllerModifyVolume w.events c.conn
            { VolumeId := volumeID, MutableParameters := params, Secrets := reqContext }
        else
          d.modifyVolumeProperties w.events c.conn
            { Name := volumeID, Parameters := params, Context := reqContext }) ∧
      ((c.Modify d volumeID params reqContext w).1 = none ↔ ev.err = none) := by
  obtain ⟨conn, flag⟩ := c
  cases flag
  · obtain ⟨h1, h2, -⟩ := Modify_false d conn volumeID params reqContext w
    exact ⟨_, h2, h1, by simp, by rw [h1]⟩
  · obtain ⟨h1, h2, -⟩ := Modify_true d conn volumeID params reqContext w
    exact ⟨_, h2, h1, by simp, by rw [h1]⟩

/-- C4: for every handle, request and driver answer, one `Modify` issues exactly
one call in total, of the dialect fixed by the flag and never of the other one.
In particular, when the flag is true and `ControllerModifyVolume` answers an
error, `Modify` returns that error and issues no `ModifyVolumeProperties`. -/
theorem Modify_single_call (d : Driver) (c : client) (volumeID : String)
    (params reqContext : StringMap) (w : World) :
    (c.Modify d volumeID params reqContext w).2.events =
        w.events ++ issued w (c.Modify d volumeID params reqContext w).2 ∧
    (issued w (c.Modify d volumeID params reqContext w).2).length = 1 ∧
    (∀ e ∈ issued w (c.Modify d volumeID params reqContext w).2,
      e.isControllerModifyVolume = c.supportsControllerModifyVolume ∧
      e.isModifyVolumeProperties = !c.supportsControllerModifyVolume) ∧
    (c.supportsControllerModifyVolume = true →
      ∀ err, d.controllerModifyVolume w.events c.conn
          { VolumeId := volumeID, MutableParameters := params, Secrets := reqContext } = some err →
        (c.Modify d volumeID params reqContext w).1 = some err ∧
        ∀ e ∈ issued w (c.Modify d volumeID params reqContext w).2,
          e.isModifyVolumeProperties = false) := by
  obtain ⟨conn, flag⟩ := c
  cases flag
  · obtain ⟨-, h2, -⟩ := Modify_false d conn volumeID params reqContext w
    have hi := issued_append w _ _ h2
    rw [hi]
    refine ⟨h2, rfl, ?_, ?_⟩
    · intro e he
      simp only [List.mem_singleton] at he
      subst he
      exact ⟨rfl, rfl⟩
    · intro h
      simp at h
  · obtain ⟨h1, h2, -⟩ := Modify_true d conn volumeID params reqContext w
    have hi := issued_append w _ _ h2
    rw [hi]
    refine ⟨h2, rfl, ?_, ?_⟩
    · intro e he
      simp only [List.mem_singleton] at he
      subst he
      exact ⟨rfl, rfl⟩
    · intro _ err herr
      refine ⟨by rw [h1]; exact herr, ?_⟩
      intro e he
      simp only [List.mem_singleton] at he
      subst he
      rfl

/-- C4 at a concrete input: a driver that advertises the standardized call and
fails it; the single observed call is the standardized one and its error is
what `Modify` returns. -/
theorem Modify_single_call_failing :
    (client.Modify failingDriver ⟨1, true⟩ "vol-1" [("iops", "3000")] [] World.init).1 =
      some (.foreign 13 "internal error") ∧
    (client.Modify failingDriver ⟨1, true⟩ "vol-1" [("iops", "3000")] [] World.init).2.events =
      [⟨.ControllerModifyVolume 1
        { VolumeId := "vol-1", MutableParameters := [("iops", "3000")], Secrets := [] },
        some (.foreign 13 "internal error")⟩] ∧
    (issued World.init
      (client.Modify failingDriver ⟨1, true⟩ "vol-1" [("iops", "3000")] [] World.init).2).length
      = 1 :=
  ⟨rfl, rfl,
    (Modify_single_call failingDriver ⟨1, true⟩ "vol-1" [("iops", "3000")] [] World.init).2.1⟩

/-! ## Claims about `SupportsVolumeModification` -/

/-- C5: with the flag true, `SupportsVolumeModification` returns nil and leaves
the world untouched (no call at all); with the flag false it issues exactly one
`GetCSIDriverModificationCapability` call, with the empty request, and returns
the error of that call unchanged, so it succeeds iff the legacy probe succeeds.
A legacy probe is issued only when the flag is false. -/
theorem SupportsVolumeModification_spec (d : Driver) (c : client) (w : World) :
    (c.supportsControllerModifyVolume = true →
      (c.SupportsVolumeModification d w).1 = none ∧
      (c.SupportsVolumeModification d w).2 = w) ∧
    (c.supportsControllerModifyVolume = false →
      (c.SupportsVolumeModification d w).2.events =
        w.events ++ [⟨.GetCSIDriverModificationCapability c.conn .empty,
          (c.SupportsVolumeModification d w).1⟩] ∧
      (c.SupportsVolumeModification d w).1 =
        d.getCSIDriverModificationCapability w.events c.conn .empty ∧
      ((c.SupportsVolumeModification d w).1 = none ↔
        d.getCSIDriverModificationCapability w.events c.conn .empty = none)) ∧
    (c.SupportsVolumeModification d w).2.events =
        w.events ++ issued w (c.SupportsVolumeModification d w).2 ∧
    (∀ e ∈ issued w (c.SupportsVolumeModification d w).2,
      e.isLegacyProbe = true ∧ c.supportsControllerModifyVolume = false) := by
  obtain ⟨conn, flag⟩ := c
  cases flag
  · have h2 : (client.SupportsVolumeModification d ⟨conn, false⟩ w).2.events =
        w.events ++ [⟨.GetCSIDriverModificationCapability conn .empty,
          d.getCSIDriverModificationCapability w.events conn .empty⟩] := rfl
    have h1 : (client.SupportsVolumeModification d ⟨conn, false⟩ w).1 =
        d.getCSIDriverModificationCapability w.events conn .empty := rfl
    have hi := issued_append w _ _ h2
    rw [hi, h1]
    refine ⟨by simp, fun _ => ⟨h2, rfl, Iff.rfl⟩, h2, ?_⟩
    intro e he
    simp only [List.mem_singleton] at he
    subst he
    exact ⟨rfl, rfl⟩
  · have h2 : (client.SupportsVolumeModification d ⟨conn, true⟩ w).2 = w := rfl
    have hi : issued w (client.SupportsVolumeModification d ⟨conn, true⟩ w).2 = [] := by
      rw [h2]; simp [issued]
    rw [hi]
    refine ⟨fun _ => ⟨rfl, h2⟩, by simp, by rw [h2]; simp, ?_⟩
    intro e he
    simp at he

/-! ## The four runs of `New` -/

theorem New_connect_error (d : Driver) (addr : String) (timeout : Duration)
    (mm : CSIMetricsManager) (w : World) (e : GoError)
    (hc : d.connect w.events addr mm = .error e) :
    New d addr timeout mm w =
      ((none, some (fmt.Errorf_w "failed to connect to CSI driver: " e)),
        ⟨w.events ++ [⟨.Connect addr mm, some e⟩], w.openConns, w.klog⟩) := by
  simp [New, connection.Connect, hc, World.record]

theorem New_probe_error (d : Driver) (addr : String) (timeout : Duration)
    (mm : CSIMetricsManager) (w : World) (conn : ClientConn) (e : GoError)
    (hc : d.connect w.events addr mm = .ok conn)
    (hp : d.probeForever (afterConnect w addr mm) conn timeout = some e) :
    New d addr timeout mm w =
      ((none, some (fmt.Errorf_w "failed probing CSI driver: " e)),
        ⟨w.events ++ [⟨.Connect addr mm, none⟩, ⟨.ProbeForever conn timeout, some e⟩],
          conn :: w.openConns, w.klog⟩) := by
  simp only [afterConnect] at hp
  simp [New, connection.Connect, hc, rpc.ProbeForever, hp, World.record]

theorem New_caps_error (d : Driver) (addr : String) (timeout : Duration)
    (mm : CSIMetricsManager) (w : World) (conn : ClientConn) (e : GoError)
    (hc : d.connect w.events addr mm = .ok conn)
    (hp : d.probeForever (afterConnect w addr mm) conn timeout = none)
    (hq : d.getControllerCapabilities (afterProbe w addr mm conn timeout) conn = .error e) :
    New d addr timeout mm w =
      ((none, some (fmt.Errorf_v "failed getting controller capabilities: " e)),
        ⟨w.events ++ [⟨.Connect addr mm, none⟩, ⟨.ProbeForever conn timeout, none⟩,
            ⟨.GetControllerCapabilities conn, some e⟩],
          conn :: w.openConns, w.klog⟩) := by
  simp only [afterProbe, afterConnect, List.append_assoc, List.cons_append,
    List.nil_append] at hp hq
  simp [New, connection.Connect, hc, rpc.ProbeForever, hp, rpc.GetControllerCapabilities, hq,
    World.record, errOf]

theorem New_ok (d : Driver) (addr : String) (timeout : Duration)
    (mm : CSIMetricsManager) (w : World) (conn : ClientConn) (caps : ControllerCapabilitySet)
    (hc : d.connect w.events addr mm = .ok conn)
    (hp : d.probeForever (afterConnect w addr mm) conn timeout = none)
    (hq : d.getControllerCapabilities (afterProbe w addr mm conn timeout) conn = .ok caps) :
    New d addr timeout mm w =
      ((some ⟨conn, caps.index ControllerServiceCapability_RPC_MODIFY_VOLUME⟩, none),
        ⟨w.events ++ [⟨.Connect addr mm, none⟩, ⟨.ProbeForever conn timeout, none⟩,
            ⟨.GetControllerCapabilities conn, none⟩],
          conn :: w.openConns, w.klog⟩) := by
  simp only [afterProbe, afterConnect, List.append_assoc, List.cons_append,
    List.nil_append] at hp hq
  simp [New, connection.Connect, hc, rpc.ProbeForever, hp, rpc.GetControllerCapabilities, hq,
    World.record, errOf]

theorem issued_mk (w : World) (evs : List Event) (o : List ClientConn)
    (k : List (String × String × String)) : issued w ⟨w.events ++ evs, o, k⟩ = evs := by
  simp [issued]

theorem index_eq_true_iff (caps : ControllerCapabilitySet)
    (k : ControllerServiceCapability_RPC_Type) :
    caps.index k = true ↔ List.lookup k caps = some true := by
  unfold ControllerCapabilitySet.index
  cases h : List.lookup k caps <;> simp

/-! ## Claims about `New` -/

/-- C6: whenever connect, readiness probe and capability query all succeed,
`New` returns a handle and a nil error; the handle holds the channel that was
opened (which is open), its flag `supportsControllerModifyVolume` is true if and
only if the capability map returned by the driver holds
`ControllerServiceCapability_RPC_MODIFY_VOLUME` (an absent key gives false), and
none of the calls issued during construction is a legacy capability probe. -/
theorem New_capability_decision (d : Driver) (addr : String) (timeout : Duration)
    (mm : CSIMetricsManager) (w : World) (conn : ClientConn) (caps : ControllerCapabilitySet)
    (hc : d.connect w.events addr mm = .ok conn)
    (hp : d.probeForever (afterConnect w addr mm) conn timeout = none)
    (hq : d.getControllerCapabilities (afterProbe w addr mm conn timeout) conn = .ok caps) :
    ∃ c : client,
      (New d addr timeout mm w).1 = (some c, none) ∧
      c.conn = conn ∧
      conn ∈ (New d addr timeout mm w).2.openConns ∧
      (c.supportsControllerModifyVolume = true ↔
        List.lookup ControllerServiceCapability_RPC_MODIFY_VOLUME caps = some true) ∧
      (List.lookup ControllerServiceCapability_RPC_MODIFY_VOLUME caps = none →
        c.supportsControllerModifyVolume = false) ∧
      (New d addr timeout mm w).2.events = w.events ++ issued w (New d addr timeout mm w).2 ∧
      ∀ e ∈ issued w (New d addr timeout mm w).2, e.isLegacyProbe = false := by
  rw [New_ok d addr timeout mm w conn caps hc hp hq, issued_mk]
  refine ⟨_, rfl, rfl, by simp, index_eq_true_iff _ _, ?_, rfl, ?_⟩
  · intro h
    simp [ControllerCapabilitySet.index, h]
  · intro e he
    simp only [List.mem_cons, List.mem_singleton, List.not_mem_nil, or_false] at he
    rcases he with rfl | rfl | rfl <;> rfl

/-- C6 at concrete inputs: a driver advertising the standardized call gives a
handle with the flag true, and the construction issues connect, probe and
capability query only. -/
theorem New_capability_decision_witness :
    (New (okDriver [(14, true)]) "unix:///csi/csi.sock" 15000000000 0 World.init).1 =
      (some ⟨1, true⟩, none) ∧
    (New (okDriver [(1, true)]) "unix:///csi/csi.sock" 15000000000 0 World.init).1 =
      (some ⟨1, false⟩, none) ∧
    ∀ e ∈ issued World.init
        (New (okDriver [(14, true)]) "unix:///csi/csi.sock" 15000000000 0 World.init).2,
      e.isLegacyProbe = false := by
  obtain ⟨_, -, -, -, -, -, -, h⟩ :=
    New_capability_decision (okDriver [(14, true)]) "unix:///csi/csi.sock" 15000000000 0
      World.init 1 [(14, true)] rfl rfl rfl
  exact ⟨rfl, rfl, h⟩

/-- C7: `New` is fail-fast and sequential.  If connect fails, `New` returns no
handle and an error and has issued the connect call only; if the readiness probe
fails, it returns no handle and an error and has issued connect and probe only;
if the capability query fails, it returns no handle and an error after connect,
probe and query.  `New` returns a handle exactly when it returns a nil error,
and exactly when all three steps succeed. -/
theorem New_fail_fast (d : Driver) (addr : String) (timeout : Duration)
    (mm : CSIMetricsManager) (w : World) :
    (∀ e, d.connect w.events addr mm = .error e →
      (New d addr timeout mm w).1 =
        (none, some (fmt.Errorf_w "failed to connect to CSI driver: " e)) ∧
      issued w (New d addr timeout mm w).2 = [⟨.Connect addr mm, some e⟩]) ∧
    (∀ conn e, d.connect w.events addr mm = .ok conn →
      d.probeForever (afterConnect w addr mm) conn timeout = some e →
      (New d addr timeout mm w).1 =
        (none, some (fmt.Errorf_w "failed probing CSI driver: " e)) ∧
      issued w (New d addr timeout mm w).2 =
        [⟨.Connect addr mm, none⟩, ⟨.ProbeForever conn timeout, some e⟩]) ∧
    (∀ conn e, d.connect w.events addr mm = .ok conn →
      d.probeForever (afterConnect w addr mm) conn timeout = none →
      d.getControllerCapabilities (afterProbe w addr mm conn timeout) conn = .error e →
      (New d addr timeout mm w).1 =
        (none, some (fmt.Errorf_v "failed getting controller capabilities: " e)) ∧
      issued w (New d addr timeout mm w).2 =
        [⟨.Connect addr mm, none⟩, ⟨.ProbeForever conn timeout, none⟩,
          ⟨.GetControllerCapabilities conn, some e⟩]) ∧
    (∀ conn caps, d.connect w.events addr mm = .ok conn →
      d.probeForever (afterConnect w addr mm) conn timeout = none →
      d.getControllerCapabilities (afterProbe w addr mm conn timeout) conn = .ok caps →
      (New d addr timeout mm w).1.1.isSome = true ∧ (New d addr timeout mm w).1.2 = none ∧
      issued w (New d addr timeout mm w).2 =
        [⟨.Connect addr mm, none⟩, ⟨.ProbeForever conn timeout, none⟩,
          ⟨.GetControllerCapabilities conn, none⟩]) ∧
    (New d addr timeout mm w).2.events = w.events ++ issued w (New d addr timeout mm w).2 ∧
    ((New d addr timeout mm w).1.1.isSome = true ↔ (New d addr timeout mm w).1.2 = none) ∧
    ((New d addr timeout mm w).1.1.isSome = true ↔
      ∃ conn caps, d.connect w.events addr mm = .ok conn ∧
        d.probeForever (afterConnect w addr mm) conn timeout = none ∧
        d.getControllerCapabilities (afterProbe w addr mm conn timeout) conn = .ok caps) := by
  refine ⟨?_, ?_, ?_, ?_, ?_⟩
  · intro e hc
    rw [New_connect_error d addr timeout mm w e hc, issued_mk]
    exact ⟨rfl, rfl⟩
  · intro conn e hc hp
    rw [New_probe_error d addr timeout mm w conn e hc hp, issued_mk]
    exact ⟨rfl, rfl⟩
  · intro conn e hc hp hq
    rw [New_caps_error d addr timeout mm w conn e hc hp hq, issued_mk]
    exact ⟨rfl, rfl⟩
  · intro conn caps hc hp hq
    rw [New_ok d addr timeout mm w conn caps hc hp hq, issued_mk]
    exact ⟨rfl, rfl, rfl⟩
  · rcases hc : d.connect w.events addr mm with e | conn
    · rw [New_connect_error d addr timeout mm w e hc, issued_mk]
      simp
    · rcases hp : d.probeForever (afterConnect w addr mm) conn timeout with _ | e
      · rcases hq : d.getControllerCapabilities (afterProbe w addr mm conn timeout) conn
          with e | caps
        · rw [New_caps_error d addr timeout mm w conn e hc hp hq, issued_mk]
          simp [hp, hq]
        · rw [New_ok d addr timeout mm w conn caps hc hp hq, issued_mk]
          simp [hp, hq]
      · rw [New_probe_error d addr timeout mm w conn e hc hp, issued_mk]
        simp [hp]

/-- C7 at a concrete input: against a driver that never becomes ready, `New`
stops after the probe. -/
theorem New_fail_fast_never_ready :
    (New neverReadyDriver "unix:///csi/csi.sock" 1000000000 0 World.init).1 =
      (none, some (.wrapped "failed probing CSI driver: context deadline exceeded"
        (.foreign 4 "context deadline exceeded"))) ∧
    issued World.init (New neverReadyDriver "unix:///csi/csi.sock" 1000000000 0 World.init).2 =
      [⟨.Connect "unix:///csi/csi.sock" 0, none⟩,
        ⟨.ProbeForever 1 1000000000, some (.foreign 4 "context deadline exceeded")⟩] :=
  ⟨by decide,
    ((New_fail_fast neverReadyDriver "unix:///csi/csi.sock" 1000000000 0 World.init).2.1
      1 (.foreign 4 "context deadline exceeded") rfl rfl).2⟩

/-- C8, as stated, fails: against a driver whose channel opens and which never
becomes ready, `New` returns an error and no handle, yet the channel it opened
is still open when it returns, the open channels differ from those before the
call, and no `Close` was issued. -/
theorem New_probe_failure_channel_still_open :
    (New neverReadyDriver "unix:///csi/csi.sock" 1000000000 0 World.init).1.1 = none ∧
    (New neverReadyDriver "unix:///csi/csi.sock" 1000000000 0 World.init).1.2 ≠ none ∧
    1 ∈ (New neverReadyDriver "unix:///csi/csi.sock" 1000000000 0 World.init).2.openConns ∧
    (New neverReadyDriver "unix:///csi/csi.sock" 1000000000 0 World.init).2.openConns ≠
      World.init.openConns ∧
    ((New neverReadyDriver "unix:///csi/csi.sock" 1000000000 0 World.init).2.events.any
      Event.isClose) = false := by
  decide

/-- C8, amended: when the channel opens and the readiness probe fails, `New`
returns no handle and the probe error wrapped, issues connect and probe and no
`Close`, and the channel it opened is still open on return: the open channels
are those open before plus the new one. -/
theorem New_probe_failure_no_release (d : Driver) (addr : String) (timeout : Duration)
    (mm : CSIMetricsManager) (w : World) (conn : ClientConn) (e : GoError)
    (hc : d.connect w.events addr mm = .ok conn)
    (hp : d.probeForever (afterConnect w addr mm) conn timeout = some e) :
    (New d addr timeout mm w).1 =
      (none, some (fmt.Errorf_w "failed probing CSI driver: " e)) ∧
    (New d addr timeout mm w).2.events = w.events ++ issued w (New d addr timeout mm w).2 ∧
    (∀ ev ∈ issued w (New d addr timeout mm w).2, ev.isClose = false) ∧
    (New d addr timeout mm w).2.openConns = conn :: w.openConns := by
  rw [New_probe_error d addr timeout mm w conn e hc hp, issued_mk]
  refine ⟨rfl, rfl, ?_, rfl⟩
  intro ev hev
  simp only [List.mem_cons, List.mem_singleton, List.not_mem_nil, or_false] at hev
  rcases hev with rfl | rfl <;> rfl

/-- C8 amended, at the never-ready driver. -/
theorem New_probe_failure_no_release_witness :
    neverReadyDriver.connect World.init.events "unix:///csi/csi.sock" 0 = .ok 1 ∧
    neverReadyDriver.probeForever (afterConnect World.init "unix:///csi/csi.sock" 0) 1 1000000000 =
      some (.foreign 4 "context deadline exceeded") ∧
    (New neverReadyDriver "unix:///csi/csi.sock" 1000000000 0 World.init).2.openConns = [1] :=
  ⟨rfl, rfl,
    (New_probe_failure_no_release neverReadyDriver "unix:///csi/csi.sock" 1000000000 0
      World.init 1 (.foreign 4 "context deadline exceeded") rfl rfl).2.2.2⟩

/-! ## Sequences of operations -/

theorem capabilityQueries_append (xs ys : List Event) :
    capabilityQueries (xs ++ ys) = capabilityQueries xs + capabilityQueries ys := by
  simp [capabilityQueries, List.countP_append]

theorem Op_run_spec (d : Driver) (op : Op) (c : client) (w : World) :
    (op.run d (c, w)).1 = c ∧
    ∃ evs, (op.run d (c, w)).2.events = w.events ++ evs ∧ capabilityQueries evs = 0 := by
  obtain ⟨conn, flag⟩ := c
  cases op with
  | Modify volumeID params reqContext =>
    refine ⟨rfl, ?_⟩
    cases flag
    · exact ⟨_, (Modify_false d conn volumeID params reqContext w).2.1, rfl⟩
    · exact ⟨_, (Modify_true d conn volumeID params reqContext w).2.1, rfl⟩
  | SupportsVolumeModification =>
    refine ⟨rfl, ?_⟩
    cases flag
    · exact ⟨[⟨.GetCSIDriverModificationCapability conn .empty,
        d.getCSIDriverModificationCapability w.events conn .empty⟩], rfl, rfl⟩
    · exact ⟨[], by simp [Op.run, client.SupportsVolumeModification], rfl⟩
  | GetDriverName =>
    exact ⟨rfl, [⟨.GetDriverName conn, (d.getDriverName w.events conn).2⟩], rfl, rfl⟩
  | CloseConnection =>
    exact ⟨rfl, [⟨.Close conn, d.close w.events conn⟩], rfl, rfl⟩

theorem runOps_spec (d : Driver) (ops : List Op) (c : client) (w : World) :
    (runOps d ops (c, w)).1 = c ∧
    ∃ evs, (runOps d ops (c, w)).2.events = w.events ++ evs ∧ capabilityQueries evs = 0 := by
  induction ops generalizing w with
  | nil => exact ⟨rfl, [], by simp [runOps], rfl⟩
  | cons op ops ih =>
    obtain ⟨h1, evs1, he1, hq1⟩ := Op_run_spec d op c w
    have hstep : runOps d (op :: ops) (c, w) = runOps d ops (c, (op.run d (c, w)).2) := by
      simp only [runOps, List.foldl_cons]
      congr 1
      exact Prod.ext h1 rfl
    obtain ⟨h2, evs2, he2, hq2⟩ := ih (op.run d (c, w)).2
    rw [hstep]
    refine ⟨h2, evs1 ++ evs2, ?_, ?_⟩
    · rw [he2, he1, List.append_assoc]
    · rw [capabilityQueries_append, hq1, hq2]

theorem New_some_queries_once (d : Driver) (addr : String) (timeout : Duration)
    (mm : CSIMetricsManager) (w : World) (c : client)
    (h : (New d addr timeout mm w).1.1 = some c) :
    ∃ evs, (New d addr timeout mm w).2.events = w.events ++ evs ∧ capabilityQueries evs = 1 := by
  rcases hc : d.connect w.events addr mm with e | conn
  · rw [New_connect_error d addr timeout mm w e hc] at h
    simp at h
  · rcases hp : d.probeForever (afterConnect w addr mm) conn timeout with _ | e
    · rcases hq : d.getControllerCapabilities (afterProbe w addr mm conn timeout) conn
        with e | caps
      · rw [New_caps_error d addr timeout mm w conn e hc hp hq] at h
        simp at h
      · rw [New_ok d addr timeout mm w conn caps hc hp hq]
        exact ⟨_, rfl, rfl⟩
    · rw [New_probe_error d addr timeout mm w conn e hc hp] at h
      simp at h

/-- C9: the capability decision is write-once.  A construction that returns a
handle issues the controller-capability query exactly once; for every handle,
world and finite sequence of later operations (`Modify`,
`SupportsVolumeModification`, `GetDriverName`, `CloseConnection`, with any
arguments and any driver answers) the handle, hence its flag, is unchanged and
none of the calls issued is a controller-capability query; so over construction
followed by any such sequence the query is issued exactly once. -/
theorem capability_write_once (d : Driver) (addr : String) (timeout : Duration)
    (mm : CSIMetricsManager) (w0 : World) (c : client) (w : World) (ops : List Op) :
    (∀ c0, (New d addr timeout mm w0).1.1 = some c0 →
      capabilityQueries (issued w0 (New d addr timeout mm w0).2) = 1 ∧
      (runOps d ops (c0, (New d addr timeout mm w0).2)).1.supportsControllerModifyVolume =
        c0.supportsControllerModifyVolume ∧
      capabilityQueries (issued w0 (runOps d ops (c0, (New d addr timeout mm w0).2)).2) = 1) ∧
    (runOps d ops (c, w)).1.supportsControllerModifyVolume = c.supportsControllerModifyVolume ∧
    (runOps d ops (c, w)).1 = c ∧
    (runOps d ops (c, w)).2.events = w.events ++ issued w (runOps d ops (c, w)).2 ∧
    capabilityQueries (issued w (runOps d ops (c, w)).2) = 0 := by
  refine ⟨?_, ?_, ?_, ?_, ?_⟩
  · intro c0 h0
    obtain ⟨evs0, he0, hq0⟩ := New_some_queries_once d addr timeout mm w0 c0 h0
    obtain ⟨h1, evs1, he1, hq1⟩ := runOps_spec d ops c0 (New d addr timeout mm w0).2
    refine ⟨?_, by rw [h1], ?_⟩
    · rw [issued_append w0 _ evs0 he0]
      exact hq0
    · have : (runOps d ops (c0, (New d addr timeout mm w0).2)).2.events =
          w0.events ++ (evs0 ++ evs1) := by
        rw [he1, he0, List.append_assoc]
      rw [issued_append w0 _ _ this, capabilityQueries_append, hq0, hq1]
  · rw [(runOps_spec d ops c w).1]
  · exact (runOps_spec d ops c w).1
  · obtain ⟨-, evs, he, -⟩ := runOps_spec d ops c w
    rw [issued_append w _ evs he]
    exact he
  · obtain ⟨-, evs, he, hq⟩ := runOps_spec d ops c w
    rw [issued_append w _ evs he]
    exact hq

/-- C9 at a concrete run: construction against a driver advertising the
standardized call, then a check, two modifications, a name query and a close;
the flag is still true and the whole history holds one capability query. -/
theorem capability_write_once_run :
    (runOps (okDriver [(14, true)])
      [.SupportsVolumeModification, .Modify "vol-1" [("iops", "3000")] [],
        .GetDriverName, .Modify "vol-2" [] [], .CloseConnection]
      (⟨1, true⟩,
        (New (okDriver [(14, true)]) "unix:///csi/csi.sock" 15000000000 0 World.init).2)).1 =
      ⟨1, true⟩ ∧
    capabilityQueries (issued World.init
      (runOps (okDriver [(14, true)])
        [.SupportsVolumeModification, .Modify "vol-1" [("iops", "3000")] [],
          .GetDriverName, .Modify "vol-2" [] [], .CloseConnection]
        (⟨1, true⟩,
          (New (okDriver [(14, true)]) "unix:///csi/csi.sock" 15000000000 0 World.init).2)).2)
      = 1 :=
  ⟨rfl,
    ((capability_write_once (okDriver [(14, true)]) "unix:///csi/csi.sock" 15000000000 0
      World.init ⟨1, true⟩ World.init
      [.SupportsVolumeModification, .Modify "vol-1" [("iops", "3000")] [],
        .GetDriverName, .Modify "vol-2" [] [], .CloseConnection]).1 ⟨1, true⟩ rfl).2.2⟩

/-! ## A driver without the standardized capability -/

/-- C10: when connect, probe and capability query succeed and the capability
map does not hold `ControllerServiceCapability_RPC_MODIFY_VOLUME`, `New` returns
a handle with the flag false and a nil error, and its whole result is the same
for every driver that answers connect, probe and capability query alike,
whatever it answers on the legacy calls.  On that handle, after any sequence of
operations (any number of `SupportsVolumeModification` checks among them, with
any results), `Modify` issues exactly one call, the legacy
`ModifyVolumeProperties`, and returns the driver answer to it;
`SupportsVolumeModification` returns the answer of the legacy capability probe. -/
theorem New_and_Modify_without_standardized (d : Driver) (addr : String) (timeout : Duration)
    (mm : CSIMetricsManager) (w : World) (conn : ClientConn) (caps : ControllerCapabilitySet)
    (hc : d.connect w.events addr mm = .ok conn)
    (hp : d.probeForever (afterConnect w addr mm) conn timeout = none)
    (hq : d.getControllerCapabilities (afterProbe w addr mm conn timeout) conn = .ok caps)
    (hlack : List.lookup ControllerServiceCapability_RPC_MODIFY_VOLUME caps ≠ some true) :
    (New d addr timeout mm w).1 = (some ⟨conn, false⟩, none) ∧
    (∀ d1 : Driver, d1.connect = d.connect → d1.probeForever = d.probeForever →
      d1.getControllerCapabilities = d.getControllerCapabilities →
      New d1 addr timeout mm w = New d addr timeout mm w) ∧
    (∀ (ops : List Op) (s : client × World),
      s = runOps d ops (⟨conn, false⟩, (New d addr timeout mm w).2) →
      ∀ (volumeID : String) (params reqContext : StringMap),
        (s.1.Modify d volumeID params reqContext s.2).2.events =
          s.2.events ++ [⟨.ModifyVolumeProperties conn
            { Name := volumeID, Parameters := params, Context := reqContext },
            (s.1.Modify d volumeID params reqContext s.2).1⟩] ∧
        (s.1.Modify d volumeID params reqContext s.2).1 =
          d.modifyVolumeProperties s.2.events conn
            { Name := volumeID, Parameters := params, Context := reqContext } ∧
        (s.1.SupportsVolumeModification d s.2).1 =
          d.getCSIDriverModificationCapability s.2.events conn .empty) := by
  have hflag : caps.index ControllerServiceCapability_RPC_MODIFY_VOLUME = false := by
    cases hb : caps.index ControllerServiceCapability_RPC_MODIFY_VOLUME
    · rfl
    · exact absurd ((index_eq_true_iff _ _).1 hb) hlack
  refine ⟨?_, ?_, ?_⟩
  · rw [New_ok d addr timeout mm w conn caps hc hp hq, hflag]
  · intro d1 h1 h2 h3
    simp only [New, connection.Connect, rpc.ProbeForever, rpc.GetControllerCapabilities, h1, h2, h3]
  · intro ops s hs volumeID params reqContext
    have h1 : s.1 = ⟨conn, false⟩ := by
      rw [hs]
      exact (runOps_spec d ops _ _).1
    rw [h1]
    obtain ⟨m1, m2, -⟩ := Modify_false d conn volumeID params reqContext s.2
    refine ⟨?_, m1, rfl⟩
    rw [m2, m1]

/-- C10 at a driver that implements neither dialect: construction succeeds with
the flag false; a modification, also after a failed
`SupportsVolumeModification` check, is one legacy call whose error is returned. -/
theorem New_and_Modify_without_standardized_witness :
    (New neitherDriver "unix:///csi/csi.sock" 15000000000 0 World.init).1 =
      (some ⟨1, false⟩, none) ∧
    (client.SupportsVolumeModification neitherDriver ⟨1, false⟩
      (New neitherDriver "unix:///csi/csi.sock" 15000000000 0 World.init).2).1 =
      some (.foreign 12 "unknown service Modify") ∧
    (client.Modify neitherDriver ⟨1, false⟩ "vol-1" [("iops", "3000")] []
      (runOps neitherDriver [.SupportsVolumeModification]
        (⟨1, false⟩, (New neitherDriver "unix:///csi/csi.sock" 15000000000 0 World.init).2)).2).1 =
      some (.foreign 12 "unknown service Modify") :=
  ⟨(New_and_Modify_without_standardized neitherDriver "unix:///csi/csi.sock" 15000000000 0
      World.init 1 [(1, true)] rfl rfl rfl (by decide)).1,
    rfl, rfl⟩

end VolumeModifier
